import Mathlib

/-!
# Verification of the unified LLM client core

Shallow embedding of `src/skills/llm-integration/scripts/llm_client.py`:
Python strings become `List Char`, Python floats that only ever hold
temperatures become `ℚ`, optional/fallible values become `Option`/`Except`,
and the lazily-cached per-provider clients become an explicit `ClientState`
record threaded through the getters.
-/

/-- Python strings are embedded as lists of characters. -/
abbrev Str := List Char

/-- Embedding of Python `str.lower()` (ASCII case folding suffices for the
provider patterns, which are all ASCII). -/
def lowerStr (s : Str) : Str := s.map Char.toLower

/-- Embedding of the Python substring test `needle in hay`: `needle` occurs
contiguously somewhere in `hay`. -/
def containsSub (needle : Str) : Str → Bool
  | [] => needle.isPrefixOf []
  | c :: cs => needle.isPrefixOf (c :: cs) || containsSub needle cs

/-- Truthiness of a Python string: non-empty. -/
def strTruthy (s : Str) : Bool := !s.isEmpty

/-- Truthiness of an optional Python string (`None` is falsy, `""` is falsy). -/
def optStrTruthy : Option Str → Bool
  | some s => strTruthy s
  | none => false

/-- Errors the embedded code can raise.  `valueError` is raised by
`_get_gemini` on a missing API key (the spec calls this condition
`ConfigurationError`); `indexError` models a Python `IndexError` from
subscripting an empty list. -/
inductive PyErr
  | valueError
  | indexError
  deriving DecidableEq, Repr

/-- The closed set of providers (`_get_provider` return values). -/
inductive Provider
  | ollama
  | openai
  | anthropic
  | gemini
  deriving DecidableEq, Repr

/-- The local-provider model prefix `"ollama/"`. -/
def ollamaTag : Str := "ollama/".toList

/-- Embedding of `LLMClient._get_provider` (llm_client.py lines 38-52):
lower-case the model name, then first match wins among: starts with
`ollama/`; contains `gpt` or `o1` or starts with `ft:`; contains `claude`;
contains `gemini`; otherwise fall back to Ollama. -/
def get_provider (model : Str) : Provider :=
  let model_lower := lowerStr model
  if ollamaTag.isPrefixOf model_lower then .ollama
  else if containsSub "gpt".toList model_lower || containsSub "o1".toList model_lower
      || ("ft:".toList).isPrefixOf model_lower then .openai
  else if containsSub "claude".toList model_lower then .anthropic
  else if containsSub "gemini".toList model_lower then .gemini
  else .ollama

/-- Spec-side substring occurrence, written from the spec's words: the
pattern occurs contiguously inside the string. -/
def OccursIn (needle hay : Str) : Prop := ∃ a b, hay = a ++ needle ++ b

/-- Spec-side prefix relation. -/
def BeginsWith (pre s : Str) : Prop := ∃ rest, s = pre ++ rest

theorem isPrefixOf_iff_beginsWith (pre s : Str) :
    pre.isPrefixOf s = true ↔ BeginsWith pre s := by
  induction pre generalizing s with
  | nil =>
      simp [List.isPrefixOf, BeginsWith]
  | cons c cs ih =>
      cases s with
      | nil =>
          simp [List.isPrefixOf, BeginsWith]
      | cons d ds =>
          simp only [List.isPrefixOf, Bool.and_eq_true, beq_iff_eq, ih, BeginsWith]
          constructor
          · rintro ⟨rfl, rest, rfl⟩
            exact ⟨rest, rfl⟩
          · rintro ⟨rest, h⟩
            injection h with h1 h2
            exact ⟨h1.symm, rest, h2⟩

theorem containsSub_iff_occursIn (needle hay : Str) :
    containsSub needle hay = true ↔ OccursIn needle hay := by
  induction hay with
  | nil =>
      simp only [containsSub, isPrefixOf_iff_beginsWith, BeginsWith, OccursIn]
      constructor
      · rintro ⟨rest, h⟩
        exact ⟨[], rest, h⟩
      · rintro ⟨a, b, h⟩
        cases a with
        | nil => exact ⟨b, h⟩
        | cons x xs => simp at h

  | cons c cs ih =>
      simp only [containsSub, Bool.or_eq_true, isPrefixOf_iff_beginsWith, BeginsWith, ih,
        OccursIn]
      constructor
      · rintro (⟨rest, h⟩ | ⟨a, b, h⟩)
        · exact ⟨[], rest, h⟩
        · exact ⟨c :: a, b, by simp [h]⟩
      · rintro ⟨a, b, h⟩
        cases a with
        | nil => exact Or.inl ⟨b, by simpa using h⟩
        | cons x xs =>
            injection h with h1 h2
            exact Or.inr ⟨xs, b, h2⟩

instance (needle hay : Str) : Decidable (OccursIn needle hay) :=
  decidable_of_iff (containsSub needle hay = true) (containsSub_iff_occursIn needle hay)

instance (pre s : Str) : Decidable (BeginsWith pre s) :=
  decidable_of_iff (pre.isPrefixOf s = true) (isPrefixOf_iff_beginsWith pre s)

/-- Provider identification written from the spec's words (§4.1): rules in
priority order, first match wins, on the case-folded identifier; every
string maps to some provider, the last rule being the Ollama fallback. -/
def providerSpec (model : Str) : Provider :=
  let m := lowerStr model
  if BeginsWith ollamaTag m then .ollama
  else if OccursIn "gpt".toList m ∨ OccursIn "o1".toList m ∨ BeginsWith "ft:".toList m then
    .openai
  else if OccursIn "claude".toList m then .anthropic
  else if OccursIn "gemini".toList m then .gemini
  else .ollama

/-- **C1.** Provider identification is a pure total function applying the
rules in priority order with first match winning, on the case-folded
identifier: `_get_provider` coincides with the rule list of the spec on
every input string, and in particular never errors (it is a total Lean
function into the closed `Provider` type). -/
theorem c1_get_provider_refines_spec (model : Str) :
    get_provider model = providerSpec model := by
  unfold get_provider providerSpec
  simp only [decide_eq_true_eq]
  by_cases h1 : BeginsWith ollamaTag (lowerStr model)
  · rw [if_pos ((isPrefixOf_iff_beginsWith _ _).mpr h1), if_pos h1]
  · rw [if_neg (fun hc => h1 ((isPrefixOf_iff_beginsWith _ _).mp hc)), if_neg h1]
    by_cases h2 : OccursIn "gpt".toList (lowerStr model) ∨
        OccursIn "o1".toList (lowerStr model) ∨
        BeginsWith "ft:".toList (lowerStr model)
    · rw [if_pos h2]
      have : (containsSub "gpt".toList (lowerStr model)
          || containsSub "o1".toList (lowerStr model)
          || ("ft:".toList).isPrefixOf (lowerStr model)) = true := by
        rcases h2 with h | h | h
        · simp only [Bool.or_eq_true]
          exact Or.inl (Or.inl ((containsSub_iff_occursIn _ _).mpr h))
        · simp only [Bool.or_eq_true]
          exact Or.inl (Or.inr ((containsSub_iff_occursIn _ _).mpr h))
        · simp only [Bool.or_eq_true]
          exact Or.inr ((isPrefixOf_iff_beginsWith _ _).mpr h)
      rw [if_pos this]
    · rw [if_neg h2]
      have hb : (containsSub "gpt".toList (lowerStr model)
          || containsSub "o1".toList (lowerStr model)
          || ("ft:".toList).isPrefixOf (lowerStr model)) = false := by
        rw [Bool.or_eq_false_iff, Bool.or_eq_false_iff]
        refine ⟨⟨?_, ?_⟩, ?_⟩
        · rw [Bool.eq_false_iff]
          intro hc
          exact h2 (Or.inl ((containsSub_iff_occursIn _ _).mp hc))
        · rw [Bool.eq_false_iff]
          intro hc
          exact h2 (Or.inr (Or.inl ((containsSub_iff_occursIn _ _).mp hc)))
        · rw [Bool.eq_false_iff]
          intro hc
          exact h2 (Or.inr (Or.inr ((isPrefixOf_iff_beginsWith _ _).mp hc)))
      rw [hb]
      simp only [Bool.false_eq_true, if_false]
      by_cases h3 : OccursIn "claude".toList (lowerStr model)
      · rw [if_pos ((containsSub_iff_occursIn _ _).mpr h3), if_pos h3]
      · rw [if_neg (fun hc => h3 ((containsSub_iff_occursIn _ _).mp hc)), if_neg h3]
        by_cases h4 : OccursIn "gemini".toList (lowerStr model)
        · rw [if_pos ((containsSub_iff_occursIn _ _).mpr h4), if_pos h4]
        · rw [if_neg (fun hc => h4 ((containsSub_iff_occursIn _ _).mp hc)), if_neg h4]

/-- A chat message (a Python dict `{"role": ..., "content": ...}`). -/
structure Message where
  role : Str
  content : Str
  deriving DecidableEq, Repr

/-- The `{"role": "user", "content": prompt}` message. -/
def userMsg (prompt : Str) : Message := ⟨"user".toList, prompt⟩

/-- The `{"role": "system", "content": system}` message. -/
def systemMsg (s : Str) : Message := ⟨"system".toList, s⟩

/-- The message list built by the Ollama/OpenAI adapters: an optional
system-role message followed by the user message
(`messages = []; if system: append; append user`). -/
def buildMessages (system : Option Str) (prompt : Str) : List Message :=
  (match system with
    | some s => [systemMsg s]
    | none => []) ++ [userMsg prompt]

/-- The keyword arguments `_chat_anthropic` / `_stream_anthropic` pass to the
Anthropic SDK (llm_client.py lines 166-177 and 279-288).  `system` and
`temperature` are `Option` because the corresponding dict keys are only
conditionally inserted. -/
structure AnthropicRequest where
  model : Str
  max_tokens : Nat
  messages : List Message
  system : Option Str
  temperature : Option ℚ
  deriving DecidableEq, Repr

/-- Embedding of the request construction in `LLMClient._chat_anthropic`
(llm_client.py lines 161-179): base kwargs of model, max_tokens and the
single user message; `system` added when supplied; `temperature` added only
when `temperature <= 1.0` ("Anthropic doesn't support temperature > 1"). -/
def buildAnthropicChat (model prompt : Str) (system : Option Str)
    (temperature : ℚ) (max_tokens : Nat) : AnthropicRequest :=
  { model := model
    max_tokens := max_tokens
    messages := [userMsg prompt]
    system := system
    temperature := if temperature ≤ 1 then some temperature else none }

/-- Embedding of the request construction in `LLMClient._stream_anthropic`
(llm_client.py lines 274-288), identical kwargs construction to the blocking
path. -/
def buildAnthropicStream (model prompt : Str) (system : Option Str)
    (temperature : ℚ) (max_tokens : Nat) : AnthropicRequest :=
  { model := model
    max_tokens := max_tokens
    messages := [userMsg prompt]
    system := system
    temperature := if temperature ≤ 1 then some temperature else none }

/-- **C2.** On both the blocking and the streaming Anthropic path, the
temperature field of the outbound request is present (with the requested
value) exactly when the requested temperature is ≤ 1.0, and is omitted for
any temperature above 1.0; every other request field (model, max_tokens,
messages, system) is independent of the temperature, and request
construction is total (never an error). -/
theorem c2_anthropic_temperature (model prompt : Str) (system : Option Str)
    (t : ℚ) (max_tokens : Nat) :
    ((buildAnthropicChat model prompt system t max_tokens).temperature = some t ↔ t ≤ 1)
    ∧ (1 < t → (buildAnthropicChat model prompt system t max_tokens).temperature = none)
    ∧ ((buildAnthropicStream model prompt system t max_tokens).temperature = some t ↔ t ≤ 1)
    ∧ (1 < t → (buildAnthropicStream model prompt system t max_tokens).temperature = none)
    ∧ (buildAnthropicChat model prompt system t max_tokens).model = model
    ∧ (buildAnthropicChat model prompt system t max_tokens).max_tokens = max_tokens
    ∧ (buildAnthropicChat model prompt system t max_tokens).messages = [userMsg prompt]
    ∧ (buildAnthropicChat model prompt system t max_tokens).system = system
    ∧ buildAnthropicStream model prompt system t max_tokens
        = buildAnthropicChat model prompt system t max_tokens := by
  unfold buildAnthropicChat buildAnthropicStream
  by_cases h : t ≤ 1
  · simp [h]
  · have h2 : 1 < t := lt_of_not_le h
    simp [h, h2]

/-- Witness for C2 at concrete inputs: temperature 3/2 (= 1.5) is omitted
and temperature 9/10 (= 0.9) is included. -/
theorem c2_anthropic_temperature_witness :
    (buildAnthropicChat "claude-sonnet-4-20250514".toList "hi".toList none
        ((3 : ℚ)/2) 1024).temperature = none
    ∧ (buildAnthropicChat "claude-sonnet-4-20250514".toList "hi".toList none
        ((9 : ℚ)/10) 1024).temperature = some ((9 : ℚ)/10) := by
  refine ⟨(c2_anthropic_temperature "claude-sonnet-4-20250514".toList "hi".toList none
    ((3 : ℚ)/2) 1024).2.1 (by norm_num), ?_⟩
  exact (c2_anthropic_temperature "claude-sonnet-4-20250514".toList "hi".toList none
    ((9 : ℚ)/10) 1024).1.mpr (by norm_num)

/-- The environment variables `_get_gemini` reads (`os.environ.get`):
`none` models an unset variable. -/
structure Env where
  gemini_api_key : Option Str
  google_api_key : Option Str
  deriving DecidableEq, Repr

/-- Python `a or b` on two optional strings: `a` when truthy, else `b`. -/
def pyOr (a b : Option Str) : Option Str :=
  if optStrTruthy a then a else b

/-- The mutable client cache of an `LLMClient` instance (fields set to
`None` in `__init__`, llm_client.py lines 33-36).  Handles are modelled as
`Nat` identities; `nextHandle` is the allocator for fresh handle identities,
so a step that leaves `nextHandle` unchanged constructed nothing. -/
structure ClientState where
  openai_client : Option Nat
  anthropic_client : Option Nat
  gemini_client : Option Nat
  nextHandle : Nat
  deriving DecidableEq, Repr

/-- The state right after `LLMClient.__init__`: no client constructed. -/
def initState : ClientState :=
  { openai_client := none, anthropic_client := none, gemini_client := none, nextHandle := 0 }

/-- Embedding of `LLMClient._get_openai` (llm_client.py lines 54-59): if no
cached client, construct one (`OpenAI()` reads its own ambient configuration
— this layer inspects neither the environment nor any credential) and cache
it; return the cached client.  The `Env` argument is taken only to state
that it is ignored. -/
def get_openai (env : Env) (s : ClientState) : Except PyErr Nat × ClientState :=
  match env, s.openai_client with
  | _, some h => (.ok h, s)
  | _, none =>
      (.ok s.nextHandle,
        { s with openai_client := some s.nextHandle, nextHandle := s.nextHandle + 1 })

/-- Embedding of `LLMClient._get_anthropic` (llm_client.py lines 61-66),
same shape as `_get_openai`: no credential validation in this layer. -/
def get_anthropic (env : Env) (s : ClientState) : Except PyErr Nat × ClientState :=
  match env, s.anthropic_client with
  | _, some h => (.ok h, s)
  | _, none =>
      (.ok s.nextHandle,
        { s with anthropic_client := some s.nextHandle, nextHandle := s.nextHandle + 1 })

/-- Embedding of `LLMClient._get_gemini` (llm_client.py lines 68-76): if no
cached client, read `GEMINI_API_KEY or GOOGLE_API_KEY`; when the result is
falsy raise `ValueError` (the spec's `ConfigurationError`) leaving the cache
untouched, otherwise construct, cache and return the client. -/
def get_gemini (env : Env) (s : ClientState) : Except PyErr Nat × ClientState :=
  match s.gemini_client with
  | some h => (.ok h, s)
  | none =>
      let api_key := pyOr env.gemini_api_key env.google_api_key
      if optStrTruthy api_key then
        (.ok s.nextHandle,
          { s with gemini_client := some s.nextHandle, nextHandle := s.nextHandle + 1 })
      else
        (.error .valueError, s)

/-- **C6.** For each provider with a registry entry (OpenAI, Anthropic,
Gemini), a second acquisition after any acquisition returns exactly the
result of the first and leaves the state unchanged — the identical cached
handle instance is returned and, since `nextHandle` is untouched, nothing
is re-constructed; and a getter called on a state that already holds a
cached handle returns that very handle without any state change. -/
theorem c6_registry_caches_handles (env : Env) (s : ClientState) :
    get_openai env (get_openai env s).2 = ((get_openai env s).1, (get_openai env s).2)
    ∧ get_anthropic env (get_anthropic env s).2
        = ((get_anthropic env s).1, (get_anthropic env s).2)
    ∧ get_gemini env (get_gemini env s).2 = ((get_gemini env s).1, (get_gemini env s).2)
    ∧ (∀ h, s.openai_client = some h → get_openai env s = (.ok h, s))
    ∧ (∀ h, s.anthropic_client = some h → get_anthropic env s = (.ok h, s))
    ∧ (∀ h, s.gemini_client = some h → get_gemini env s = (.ok h, s)) := by
  refine ⟨?_, ?_, ?_, ?_, ?_, ?_⟩
  · cases hc : s.openai_client <;> simp [get_openai, hc]
  · cases hc : s.anthropic_client <;> simp [get_anthropic, hc]
  · cases hc : s.gemini_client with
    | some h => simp [get_gemini, hc]
    | none =>
        by_cases hk : optStrTruthy (pyOr env.gemini_api_key env.google_api_key)
        · simp [get_gemini, hc, hk]
        · simp [get_gemini, hc, hk]
  · intro h hc
    simp [get_openai, hc]
  · intro h hc
    simp [get_anthropic, hc]
  · intro h hc
    simp [get_gemini, hc]

/-- Witness for C6 on concrete states: two successive OpenAI acquisitions
from a fresh client agree, and on a state already holding cached handles
each getter returns exactly the cached handle with the state unchanged. -/
theorem c6_registry_caches_handles_witness :
    get_openai ⟨none, none⟩ (get_openai ⟨none, none⟩ initState).2
      = ((get_openai ⟨none, none⟩ initState).1, (get_openai ⟨none, none⟩ initState).2)
    ∧ get_openai ⟨none, none⟩ ⟨some 5, some 6, some 7, 8⟩
        = (.ok 5, ⟨some 5, some 6, some 7, 8⟩)
    ∧ get_anthropic ⟨none, none⟩ ⟨some 5, some 6, some 7, 8⟩
        = (.ok 6, ⟨some 5, some 6, some 7, 8⟩)
    ∧ get_gemini ⟨none, none⟩ ⟨some 5, some 6, some 7, 8⟩
        = (.ok 7, ⟨some 5, some 6, some 7, 8⟩) := by
  refine ⟨(c6_registry_caches_handles ⟨none, none⟩ initState).1,
    (c6_registry_caches_handles ⟨none, none⟩ ⟨some 5, some 6, some 7, 8⟩).2.2.2.1 5 rfl,
    (c6_registry_caches_handles ⟨none, none⟩ ⟨some 5, some 6, some 7, 8⟩).2.2.2.2.1 6 rfl,
    (c6_registry_caches_handles ⟨none, none⟩ ⟨some 5, some 6, some 7, 8⟩).2.2.2.2.2 7 rfl⟩

/-- **C7.** On a state with no cached Gemini handle (first use), acquiring
the Gemini handle fails with the configuration error exactly when neither
`GEMINI_API_KEY` nor `GOOGLE_API_KEY` holds a usable (non-empty) value, and
on that failure the registry state is returned unchanged — nothing is
cached; the OpenAI and Anthropic getters never fail and never inspect the
environment (no credential-presence validation in this layer). -/
theorem c7_gemini_configuration_error (env : Env) (s : ClientState)
    (hfirst : s.gemini_client = none) :
    ((get_gemini env s).1 = .error .valueError
      ↔ (optStrTruthy env.gemini_api_key = false ∧ optStrTruthy env.google_api_key = false))
    ∧ ((get_gemini env s).1 = .error .valueError → (get_gemini env s).2 = s)
    ∧ (∀ env2 s2, get_openai env2 s2 = get_openai env s2
        ∧ get_anthropic env2 s2 = get_anthropic env s2
        ∧ (∃ h, (get_openai env2 s2).1 = .ok h)
        ∧ (∃ h, (get_anthropic env2 s2).1 = .ok h)) := by
  have hkey : optStrTruthy (pyOr env.gemini_api_key env.google_api_key) = false
      ↔ (optStrTruthy env.gemini_api_key = false ∧ optStrTruthy env.google_api_key = false) := by
    unfold pyOr
    by_cases hg : optStrTruthy env.gemini_api_key <;> simp [hg]
  refine ⟨?_, ?_, ?_⟩
  · rw [← hkey]
    by_cases hk : optStrTruthy (pyOr env.gemini_api_key env.google_api_key)
    · simp [get_gemini, hfirst, hk]
    · simp [get_gemini, hfirst, Bool.eq_false_iff.mpr hk]
  · intro herr
    by_cases hk : optStrTruthy (pyOr env.gemini_api_key env.google_api_key)
    · exfalso
      rw [show (get_gemini env s).1 = .ok s.nextHandle by simp [get_gemini, hfirst, hk]] at herr
      exact Except.noConfusion herr
    · simp [get_gemini, hfirst, hk]
  · intro env2 s2
    refine ⟨?_, ?_, ?_, ?_⟩
    · cases hc : s2.openai_client <;> simp [get_openai, hc]
    · cases hc : s2.anthropic_client <;> simp [get_anthropic, hc]
    · cases hc : s2.openai_client <;> simp [get_openai, hc]
    · cases hc : s2.anthropic_client <;> simp [get_anthropic, hc]

/-- Witness for C7 at a concrete first-use state and an environment where
`GEMINI_API_KEY` is set to the empty string and `GOOGLE_API_KEY` is unset:
the acquisition fails with the configuration error. -/
theorem c7_gemini_configuration_error_witness :
    (get_gemini ⟨some "".toList, none⟩ initState).1 = .error .valueError
    ∧ (get_gemini ⟨some "".toList, none⟩ initState).2 = initState := by
  have h := c7_gemini_configuration_error ⟨some "".toList, none⟩ initState rfl
  have herr : (get_gemini ⟨some "".toList, none⟩ initState).1 = .error .valueError :=
    h.1.mpr (by constructor <;> rfl)
  exact ⟨herr, h.2.1 herr⟩

/-- One Ollama stream chunk, as the adapter probes it:
`chunk.get("message", {}).get("content")` — both levels may be absent. -/
structure OllamaChunkMsg where
  content : Option Str
  deriving DecidableEq, Repr

structure OllamaChunk where
  message : Option OllamaChunkMsg
  deriving DecidableEq, Repr

/-- The text probed by `_stream_ollama`'s guard. -/
def ollamaChunkText (c : OllamaChunk) : Option Str :=
  c.message.bind (fun m => m.content)

/-- Embedding of the emission loop of `LLMClient._stream_ollama`
(llm_client.py lines 248-250): for each chunk, yield its message content
exactly when that content is truthy (present and non-empty). -/
def streamOllamaEmit : List OllamaChunk → List Str
  | [] => []
  | c :: rest =>
      match ollamaChunkText c with
      | some s => if strTruthy s then s :: streamOllamaEmit rest else streamOllamaEmit rest
      | none => streamOllamaEmit rest

/-- One OpenAI stream chunk: a list of choices each holding a delta with
optional content (`chunk.choices[0].delta.content`). -/
structure OpenAIDelta where
  content : Option Str
  deriving DecidableEq, Repr

structure OpenAIStreamChoice where
  delta : OpenAIDelta
  deriving DecidableEq, Repr

structure OpenAIChunk where
  choices : List OpenAIStreamChoice
  deriving DecidableEq, Repr

/-- The text probed by `_stream_openai`'s guard (first choice's delta
content, when a first choice exists). -/
def openaiChunkText (c : OpenAIChunk) : Option Str :=
  c.choices.head?.bind (fun ch => ch.delta.content)

/-- Embedding of the emission loop of `LLMClient._stream_openai`
(llm_client.py lines 270-272): `chunk.choices[0]` raises `IndexError` on a
chunk with no choices; otherwise the delta content is yielded exactly when
truthy. -/
def streamOpenaiEmit : List OpenAIChunk → Except PyErr (List Str)
  | [] => .ok []
  | c :: rest =>
      match c.choices with
      | [] => .error .indexError
      | ch :: _ =>
          match ch.delta.content with
          | some s =>
              if strTruthy s then (streamOpenaiEmit rest).map (fun l => s :: l)
              else streamOpenaiEmit rest
          | none => streamOpenaiEmit rest

/-- Embedding of the emission loop of `LLMClient._stream_anthropic`
(llm_client.py lines 290-292): every fragment of the SDK's `text_stream`
is yielded unchanged — there is no content guard on this path. -/
def streamAnthropicEmit : List Str → List Str
  | [] => []
  | t :: rest => t :: streamAnthropicEmit rest

/-- One Gemini stream chunk (`chunk.text` may be absent). -/
structure GeminiChunk where
  text : Option Str
  deriving DecidableEq, Repr

/-- Embedding of the emission loop of `LLMClient._stream_gemini`
(llm_client.py lines 307-313): yield `chunk.text` exactly when truthy. -/
def streamGeminiEmit : List GeminiChunk → List Str
  | [] => []
  | c :: rest =>
      match c.text with
      | some s => if strTruthy s then s :: streamGeminiEmit rest else streamGeminiEmit rest
      | none => streamGeminiEmit rest

/-- Spec-side description of a filtering stream adapter: the subsequence of
chunks having non-empty textual content, in arrival order, mapped to that
content. -/
def nonEmptyTexts {α : Type} (textOf : α → Option Str) (chunks : List α) : List Str :=
  (chunks.filter (fun c => optStrTruthy (textOf c))).map (fun c => (textOf c).getD [])

theorem nonEmptyTexts_no_empty {α : Type} (textOf : α → Option Str)
    (chunks : List α) : ∀ s ∈ nonEmptyTexts textOf chunks, s ≠ [] := by
  intro s hs
  unfold nonEmptyTexts at hs
  rcases List.mem_map.mp hs with ⟨c, hc, hcs⟩
  have ht := List.of_mem_filter hc
  cases hx : textOf c with
  | none => rw [hx] at ht; simp [optStrTruthy] at ht
  | some v =>
      rw [hx] at ht hcs
      simp only [Option.getD_some] at hcs
      simp only [optStrTruthy, strTruthy, Bool.not_eq_true'] at ht
      rw [← hcs]
      exact fun hnil => by rw [hnil] at ht; simp [List.isEmpty] at ht

theorem streamOllamaEmit_eq_nonEmptyTexts (chunks : List OllamaChunk) :
    streamOllamaEmit chunks = nonEmptyTexts ollamaChunkText chunks := by
  induction chunks with
  | nil => rfl
  | cons c rest ih =>
      unfold streamOllamaEmit nonEmptyTexts
      cases hx : ollamaChunkText c with
      | none => simpa [hx, optStrTruthy, nonEmptyTexts] using ih
      | some s =>
          by_cases hs : strTruthy s
          · simpa [hx, optStrTruthy, hs, nonEmptyTexts] using ih
          · simpa [hx, optStrTruthy, hs, nonEmptyTexts] using ih

theorem streamGeminiEmit_eq_nonEmptyTexts (chunks : List GeminiChunk) :
    streamGeminiEmit chunks = nonEmptyTexts (fun c => c.text) chunks := by
  induction chunks with
  | nil => rfl
  | cons c rest ih =>
      unfold streamGeminiEmit nonEmptyTexts
      cases hx : c.text with
      | none => simpa [hx, optStrTruthy, nonEmptyTexts] using ih
      | some s =>
          by_cases hs : strTruthy s
          · simpa [hx, optStrTruthy, hs, nonEmptyTexts] using ih
          · simpa [hx, optStrTruthy, hs, nonEmptyTexts] using ih

theorem streamOpenaiEmit_eq_nonEmptyTexts (chunks : List OpenAIChunk)
    (hw : ∀ c ∈ chunks, c.choices ≠ []) :
    streamOpenaiEmit chunks = .ok (nonEmptyTexts openaiChunkText chunks) := by
  induction chunks with
  | nil => rfl
  | cons c rest ih =>
      have hc : c.choices ≠ [] := hw c (List.mem_cons_self c rest)
      have ihr := ih (fun x hx => hw x (List.mem_cons_of_mem c hx))
      unfold streamOpenaiEmit nonEmptyTexts
      cases hcs : c.choices with
      | nil => exact absurd hcs hc
      | cons ch chs =>
          have ht : openaiChunkText c = ch.delta.content := by
            unfold openaiChunkText
            rw [hcs]
            rfl
          cases hx : ch.delta.content with
          | none =>
              rw [ihr]
              simp [nonEmptyTexts, ht, hx, optStrTruthy]
          | some s =>
              by_cases hs : strTruthy s
              · rw [ihr]
                simp [nonEmptyTexts, ht, hx, optStrTruthy, hs, Except.map]
              · rw [ihr]
                simp [nonEmptyTexts, ht, hx, optStrTruthy, hs]

/-- **C3 counterexample.** The claim fails on the Anthropic streaming
adapter: fed the one-fragment stream `[""]` (an empty-content fragment),
`_stream_anthropic` re-emits the empty string instead of the empty output
the claim requires. -/
theorem c3_counterexample_anthropic_empty :
    streamAnthropicEmit ["".toList] = ["".toList]
    ∧ streamAnthropicEmit ["".toList] ≠ [] := by
  exact ⟨rfl, by simp [streamAnthropicEmit]⟩

/-- **C3 (amended).** The Ollama, OpenAI and Gemini streaming adapters emit
exactly the subsequence of chunks with non-empty textual content, in
arrival order, never an empty string (for OpenAI on any chunk sequence
whose chunks each carry at least one choice, `chunk.choices[0]` raising
`IndexError` otherwise); the Anthropic streaming adapter instead re-emits
every fragment of the SDK's text stream unchanged, in order, including
empty-string fragments. -/
theorem c3_stream_adapters (oc : List OllamaChunk) (okc : List OpenAIChunk)
    (gc : List GeminiChunk) (ts : List Str)
    (hw : ∀ c ∈ okc, c.choices ≠ []) :
    streamOllamaEmit oc = nonEmptyTexts ollamaChunkText oc
    ∧ (∀ s ∈ streamOllamaEmit oc, s ≠ [])
    ∧ streamOpenaiEmit okc = .ok (nonEmptyTexts openaiChunkText okc)
    ∧ (∀ l s, streamOpenaiEmit okc = .ok l → s ∈ l → s ≠ [])
    ∧ streamGeminiEmit gc = nonEmptyTexts (fun c => c.text) gc
    ∧ (∀ s ∈ streamGeminiEmit gc, s ≠ [])
    ∧ streamAnthropicEmit ts = ts := by
  refine ⟨streamOllamaEmit_eq_nonEmptyTexts oc, ?_,
    streamOpenaiEmit_eq_nonEmptyTexts okc hw, ?_,
    streamGeminiEmit_eq_nonEmptyTexts gc, ?_, ?_⟩
  · rw [streamOllamaEmit_eq_nonEmptyTexts oc]
    exact nonEmptyTexts_no_empty _ oc
  · intro l s hl hs
    rw [streamOpenaiEmit_eq_nonEmptyTexts okc hw] at hl
    injection hl with hl
    rw [← hl] at hs
    exact nonEmptyTexts_no_empty _ okc s hs
  · rw [streamGeminiEmit_eq_nonEmptyTexts gc]
    exact nonEmptyTexts_no_empty _ gc
  · induction ts with
    | nil => rfl
    | cons t rest ih => simpa [streamAnthropicEmit] using ih

/-- Witness for C3 (amended) at concrete chunk streams: one content
fragment, one control-only fragment, one empty-content fragment per
provider; one empty fragment on the Anthropic text stream. -/
theorem c3_stream_adapters_witness :
    streamOllamaEmit
        [⟨some ⟨some "a".toList⟩⟩, ⟨none⟩, ⟨some ⟨some "".toList⟩⟩]
      = ["a".toList]
    ∧ streamOpenaiEmit
        [⟨[⟨⟨some "b".toList⟩⟩]⟩, ⟨[⟨⟨none⟩⟩]⟩, ⟨[⟨⟨some "".toList⟩⟩]⟩]
      = .ok ["b".toList]
    ∧ streamAnthropicEmit ["".toList, "c".toList] = ["".toList, "c".toList] := by
  have h := c3_stream_adapters
    [⟨some ⟨some "a".toList⟩⟩, ⟨none⟩, ⟨some ⟨some "".toList⟩⟩]
    [⟨[⟨⟨some "b".toList⟩⟩]⟩, ⟨[⟨⟨none⟩⟩]⟩, ⟨[⟨⟨some "".toList⟩⟩]⟩]
    ([] : List GeminiChunk) ["".toList, "c".toList]
    (by intro c hc; fin_cases hc <;> simp)
  refine ⟨?_, ?_, h.2.2.2.2.2.2⟩
  · rw [h.1]; rfl
  · rw [h.2.2.1]; rfl

/-- The blocking OpenAI reply shape as `_chat_openai` probes it:
`response.choices[0].message.content`, where `content` is optional in the
SDK (absent for e.g. tool-call-only completions). -/
structure OpenAIRespMessage where
  content : Option Str
  deriving DecidableEq, Repr

structure OpenAIChoice where
  message : OpenAIRespMessage
  deriving DecidableEq, Repr

structure OpenAIReply where
  choices : List OpenAIChoice
  deriving DecidableEq, Repr

/-- Embedding of the result extraction of `LLMClient._chat_openai`
(llm_client.py lines 158-159): `return response.choices[0].message.content`.
Subscripting an empty `choices` raises `IndexError`; otherwise the content
field is returned as-is — including when it is `None`. -/
def chat_openai_extract (r : OpenAIReply) : Except PyErr (Option Str) :=
  match r.choices with
  | [] => .error .indexError
  | c :: _ => .ok c.message.content

/-- The blocking Gemini reply as `_chat_gemini` probes it: the SDK's
`response.text` accessor, which is `None` when no textual part exists. -/
structure GeminiReply where
  text : Option Str
  deriving DecidableEq, Repr

/-- Embedding of the result extraction of `LLMClient._chat_gemini`
(llm_client.py line 201): `return response.text`, passed through as-is. -/
def chat_gemini_extract (r : GeminiReply) : Option Str :=
  r.text

/-- **C4 (code bug).** Contrary to the claim (and to the functions' own
`-> str` annotations), the blocking extraction does not fail when the
expected text field is absent: on an OpenAI reply whose single choice has
`content = None`, `_chat_openai` silently returns that null, and on a
Gemini reply with `text = None`, `_chat_gemini` silently returns null —
no `MalformedResponseError` (no such error exists anywhere in the code). -/
theorem c4_extraction_silently_returns_null :
    chat_openai_extract ⟨[⟨⟨none⟩⟩]⟩ = .ok none
    ∧ chat_gemini_extract ⟨none⟩ = none := by
  exact ⟨rfl, rfl⟩

/-- Embedding of the comparison loop in `main` (llm_client.py lines
350-365): for each model, in the caller-supplied order, invoke `chat` once
and record the model together with its outcome (the printed response on
success, the caught and printed error otherwise); the loop body catches
every failure, so the iteration always continues with the next model.  The
network side of `chat` is abstracted as an oracle from model name to
outcome. -/
def runCompare (chat : Str → Except PyErr Str) : List Str → List (Str × Except PyErr Str)
  | [] => []
  | m :: ms => (m, chat m) :: runCompare chat ms

/-- **C5.** For every chat oracle and caller-supplied model list, the
comparison runner produces exactly one outcome per model, against the right
model, in the caller-supplied order: position `i` of the output is the pair
of model `i` and the result of the single `chat` invocation on it.  In
particular an erroneous outcome at position `i` leaves every later position
intact — the batch never aborts on a per-model failure. -/
theorem c5_compare_runner (chat : Str → Except PyErr Str) (models : List Str) :
    (runCompare chat models).map Prod.fst = models
    ∧ (runCompare chat models).length = models.length
    ∧ ∀ i, (runCompare chat models).get? i = (models.get? i).map (fun m => (m, chat m)) := by
  induction models with
  | nil => exact ⟨rfl, rfl, fun i => rfl⟩
  | cons m ms ih =>
      refine ⟨?_, ?_, ?_⟩
      · simpa [runCompare] using ih.1
      · simpa [runCompare] using ih.2.1
      · intro i
        cases i with
        | zero => rfl
        | succ j => simpa [runCompare] using ih.2.2 j

/-- Embedding of `model.replace("ollama/", "")` as used by
`LLMClient._chat_ollama` (llm_client.py line 120) and
`LLMClient._stream_ollama` (line 235): Python `str.replace` deletes every
non-overlapping occurrence of the pattern, scanning left to right and
resuming after each match. -/
def stripOllama : Str → Str
  | [] => []
  | c :: cs =>
      if ollamaTag.isPrefixOf (c :: cs) then stripOllama ((c :: cs).drop ollamaTag.length)
      else c :: stripOllama cs
termination_by s => s.length
decreasing_by
  · have h7 : ollamaTag.length = 7 := rfl
    simp [h7]
    omega
  · simp

theorem stripOllama_length_le (s : Str) : (stripOllama s).length ≤ s.length := by
  induction s using stripOllama.induct with
  | case1 => simp [stripOllama]
  | case2 c cs hpre ih =>
      rw [stripOllama, if_pos hpre]
      calc (stripOllama ((c :: cs).drop ollamaTag.length)).length
          ≤ ((c :: cs).drop ollamaTag.length).length := ih
        _ ≤ (c :: cs).length := by simp
  | case3 c cs hpre ih =>
      rw [stripOllama, if_neg hpre]
      simpa using Nat.succ_le_succ ih

theorem stripOllama_of_not_contains (s : Str)
    (h : containsSub ollamaTag s = false) : stripOllama s = s := by
  induction s using stripOllama.induct with
  | case1 => simp [stripOllama]
  | case2 c cs hpre ih =>
      exfalso
      rw [containsSub, hpre] at h
      simp at h
  | case3 c cs hpre ih =>
      rw [containsSub, Bool.or_eq_false_iff] at h
      rw [stripOllama, if_neg hpre, ih h.2]

theorem stripOllama_shortens_of_contains (s : Str)
    (h : containsSub ollamaTag s = true) : (stripOllama s).length < s.length := by
  induction s using stripOllama.induct with
  | case1 =>
      rw [containsSub] at h
      exact absurd h (by decide)
  | case2 c cs hpre ih =>
      rw [stripOllama, if_pos hpre]
      have hle := stripOllama_length_le ((c :: cs).drop ollamaTag.length)
      have h7 : ollamaTag.length = 7 := rfl
      rw [h7] at hle ⊢
      simp only [List.length_drop, List.length_cons] at hle ⊢
      omega
  | case3 c cs hpre ih =>
      have hps : List.isPrefixOf ollamaTag (c :: cs) = false := Bool.eq_false_iff.mpr hpre
      rw [containsSub, hps, Bool.false_or] at h
      rw [stripOllama, if_neg hpre]
      simpa using Nat.succ_lt_succ (ih h)

theorem stripOllama_tag_append (m : Str) :
    stripOllama (ollamaTag ++ m) = stripOllama m := by
  have hshape : ollamaTag ++ m = 'o' :: (('l' :: 'l' :: 'a' :: 'm' :: 'a' :: '/' :: []) ++ m) :=
    rfl
  have hpre : ollamaTag.isPrefixOf (ollamaTag ++ m) = true :=
    (isPrefixOf_iff_beginsWith _ _).mpr ⟨m, rfl⟩
  rw [hshape, stripOllama, if_pos (by rw [← hshape]; exact hpre), ← hshape,
    List.drop_left]

/-- **C9.** The Ollama adapters compute the backend model name as the model
identifier with every (non-overlapping, left-to-right) occurrence of
`ollama/` deleted — not only a leading prefix: any identifier still
containing `ollama/` is strictly shortened by the strip, while an
identifier without an occurrence passes through unchanged — so prefixing a
name `m` with `ollama/` and then stripping round-trips to `m` exactly when
`m` itself contains no `ollama/` substring. -/
theorem c9_strip_all_occurrences (m : Str) :
    (stripOllama (ollamaTag ++ m) = m ↔ containsSub ollamaTag m = false)
    ∧ (containsSub ollamaTag m = true → (stripOllama m).length < m.length)
    ∧ (containsSub ollamaTag m = false → stripOllama m = m) := by
  refine ⟨?_, stripOllama_shortens_of_contains m, stripOllama_of_not_contains m⟩
  rw [stripOllama_tag_append]
  constructor
  · intro h
    by_contra hc
    rw [Bool.not_eq_false] at hc
    have := stripOllama_shortens_of_contains m hc
    rw [h] at this
    exact lt_irrefl _ this
  · exact stripOllama_of_not_contains m

/-- Witness for C9 at concrete identifiers: `ollama/` + `llama3` strips
back to `llama3` (no occurrence inside), and `xollama/y` — a non-leading
occurrence — is strictly shortened. -/
theorem c9_strip_all_occurrences_witness :
    stripOllama (ollamaTag ++ "llama3".toList) = "llama3".toList
    ∧ (stripOllama "xollama/y".toList).length < ("xollama/y".toList).length := by
  exact ⟨(c9_strip_all_occurrences "llama3".toList).1.mpr (by decide),
    (c9_strip_all_occurrences "xollama/y".toList).2.1 (by decide)⟩

/-- One entry of the Ollama backend's listing reply (`m["name"]`). -/
structure OllamaModelEntry where
  name : Str
  deriving DecidableEq, Repr

/-- The Ollama listing reply as `list_ollama_models` probes it:
`models.get("models", [])`. -/
structure OllamaListReply where
  models : Option (List OllamaModelEntry)
  deriving DecidableEq, Repr

/-- Embedding of `LLMClient.list_ollama_models` (llm_client.py lines
315-319): the names of the backend's model list (empty when the key is
absent). -/
def list_ollama_models (r : OllamaListReply) : List Str :=
  (r.models.getD []).map (fun m => m.name)

/-- Embedding of the exposed listing operation (spec `listLocalModels`):
the `--list-ollama` branch of `main` (llm_client.py lines 338-343) prints
each listed name prefixed with `ollama/`. -/
def listLocalModels (r : OllamaListReply) : List Str :=
  (list_ollama_models r).map (fun m => ollamaTag ++ m)

theorem lowerStr_ollamaTag_append (n : Str) :
    lowerStr (ollamaTag ++ n) = ollamaTag ++ lowerStr n := by
  unfold lowerStr
  rw [List.map_append]
  congr 1

theorem get_provider_ollamaTag_append (n : Str) :
    get_provider (ollamaTag ++ n) = Provider.ollama := by
  unfold get_provider
  rw [lowerStr_ollamaTag_append,
    if_pos ((isPrefixOf_iff_beginsWith _ _).mpr ⟨lowerStr n, rfl⟩)]

/-- **C8.** The exposed listing operation returns the backend's model list
with each name prefixed by `ollama/`, and the provider identifier routes
every returned identifier back to Ollama (identifier round-tripping). -/
theorem c8_list_local_models (r : OllamaListReply) :
    listLocalModels r = (r.models.getD []).map (fun m => ollamaTag ++ m.name)
    ∧ ∀ m ∈ listLocalModels r, get_provider m = Provider.ollama := by
  constructor
  · unfold listLocalModels list_ollama_models
    rw [List.map_map]
    rfl
  · intro m hm
    unfold listLocalModels at hm
    rcases List.mem_map.mp hm with ⟨n, _, rfl⟩
    exact get_provider_ollamaTag_append n

/-- Witness for C8 on a concrete one-model backend reply. -/
theorem c8_list_local_models_witness :
    listLocalModels ⟨some [⟨"llama3".toList⟩]⟩ = ["ollama/llama3".toList]
    ∧ get_provider "ollama/llama3".toList = Provider.ollama := by
  have h := c8_list_local_models ⟨some [⟨"llama3".toList⟩]⟩
  constructor
  · rw [h.1]
    decide
  · exact h.2 "ollama/llama3".toList (by rw [h.1]; decide)

/-- The options dict of an Ollama call (`{"temperature": ..., "num_predict": ...}`). -/
structure OllamaOptions where
  temperature : ℚ
  num_predict : Nat
  deriving DecidableEq, Repr

/-- The outbound Ollama call (llm_client.py lines 127-134 and 241-246). -/
structure OllamaRequest where
  model : Str
  messages : List Message
  options : OllamaOptions
  stream : Bool
  deriving DecidableEq, Repr

/-- Embedding of the request construction in `LLMClient._chat_ollama`
(llm_client.py lines 114-134). -/
def buildOllamaChat (model prompt : Str) (system : Option Str)
    (temperature : ℚ) (max_tokens : Nat) : OllamaRequest :=
  { model := stripOllama model
    messages := buildMessages system prompt
    options := ⟨temperature, max_tokens⟩
    stream := false }

/-- Embedding of the request construction in `LLMClient._stream_ollama`
(llm_client.py lines 230-246), which passes `stream=True`. -/
def buildOllamaStream (model prompt : Str) (system : Option Str)
    (temperature : ℚ) (max_tokens : Nat) : OllamaRequest :=
  { model := stripOllama model
    messages := buildMessages system prompt
    options := ⟨temperature, max_tokens⟩
    stream := true }

/-- The outbound OpenAI call (llm_client.py lines 147-158 and 262-268).
`response_format` models the optional `create_kwargs["response_format"]`
entry (the CLI's only value for it is the non-empty, hence truthy, dict
`{"type": "json_object"}`, modelled by its `type` string). -/
structure OpenAIRequest where
  model : Str
  messages : List Message
  max_tokens : Nat
  temperature : ℚ
  response_format : Option Str
  stream : Bool
  deriving DecidableEq, Repr

/-- Embedding of the request construction in `LLMClient._chat_openai`
(llm_client.py lines 137-158): the optional `response_format` keyword
argument is copied into the call when supplied. -/
def buildOpenaiChat (model prompt : Str) (system : Option Str)
    (temperature : ℚ) (max_tokens : Nat) (response_format : Option Str) : OpenAIRequest :=
  { model := model
    messages := buildMessages system prompt
    max_tokens := max_tokens
    temperature := temperature
    response_format := response_format
    stream := false }

/-- Embedding of the request construction in `LLMClient._stream_openai`
(llm_client.py lines 252-268): no keyword arguments exist on this path, so
no `response_format` can ever be attached; `stream=True` is passed. -/
def buildOpenaiStream (model prompt : Str) (system : Option Str)
    (temperature : ℚ) (max_tokens : Nat) : OpenAIRequest :=
  { model := model
    messages := buildMessages system prompt
    max_tokens := max_tokens
    temperature := temperature
    response_format := none
    stream := true }

/-- The Gemini generation config (llm_client.py lines 188-194). -/
structure GeminiConfig where
  temperature : ℚ
  max_output_tokens : Nat
  system_instruction : Option Str
  deriving DecidableEq, Repr

/-- The outbound Gemini call (llm_client.py lines 196-200 and 307-311). -/
structure GeminiRequest where
  model : Str
  contents : Str
  config : GeminiConfig
  deriving DecidableEq, Repr

/-- Embedding of the request construction in `LLMClient._chat_gemini`
(llm_client.py lines 182-200). -/
def buildGeminiChat (model prompt : Str) (system : Option Str)
    (temperature : ℚ) (max_tokens : Nat) : GeminiRequest :=
  { model := model
    contents := prompt
    config := ⟨temperature, max_tokens, system⟩ }

/-- Embedding of the request construction in `LLMClient._stream_gemini`
(llm_client.py lines 294-311), identical config construction. -/
def buildGeminiStream (model prompt : Str) (system : Option Str)
    (temperature : ℚ) (max_tokens : Nat) : GeminiRequest :=
  { model := model
    contents := prompt
    config := ⟨temperature, max_tokens, system⟩ }

/-- The outbound call a facade dispatch produces: one provider-shaped
request. -/
inductive OutboundCall
  | ollama (r : OllamaRequest)
  | openai (r : OpenAIRequest)
  | anthropic (r : AnthropicRequest)
  | gemini (r : GeminiRequest)
  deriving DecidableEq, Repr

/-- Embedding of the request side of `LLMClient.chat` (llm_client.py lines
78-112): the Python default arguments `temperature=0.7`, `max_tokens=1024`
are modelled by `Option` parameters (`none` = caller omitted the argument);
`**kwargs` reaches only the OpenAI adapter. -/
def chat_dispatch (model prompt : Str) (system : Option Str)
    (temperature : Option ℚ) (max_tokens : Option Nat)
    (response_format : Option Str) : OutboundCall :=
  let t := temperature.getD ((7 : ℚ)/10)
  let k := max_tokens.getD 1024
  match get_provider model with
  | .ollama => .ollama (buildOllamaChat model prompt system t k)
  | .openai => .openai (buildOpenaiChat model prompt system t k response_format)
  | .anthropic => .anthropic (buildAnthropicChat model prompt system t k)
  | .gemini => .gemini (buildGeminiChat model prompt system t k)

/-- Embedding of the request side of `LLMClient.stream` (llm_client.py
lines 203-228): same defaults, but the signature takes no `**kwargs` at
all. -/
def stream_dispatch (model prompt : Str) (system : Option Str)
    (temperature : Option ℚ) (max_tokens : Option Nat) : OutboundCall :=
  let t := temperature.getD ((7 : ℚ)/10)
  let k := max_tokens.getD 1024
  match get_provider model with
  | .ollama => .ollama (buildOllamaStream model prompt system t k)
  | .openai => .openai (buildOpenaiStream model prompt system t k)
  | .anthropic => .anthropic (buildAnthropicStream model prompt system t k)
  | .gemini => .gemini (buildGeminiStream model prompt system t k)

/-- The temperature actually attached to an outbound call (for Anthropic
the conditionally-included field). -/
def callTemperature : OutboundCall → Option ℚ
  | .ollama r => some r.options.temperature
  | .openai r => some r.temperature
  | .anthropic r => r.temperature
  | .gemini r => some r.config.temperature

/-- The max-output-tokens value attached to an outbound call, under each
provider's own parameter name. -/
def callMaxTokens : OutboundCall → Nat
  | .ollama r => r.options.num_predict
  | .openai r => r.max_tokens
  | .anthropic r => r.max_tokens
  | .gemini r => r.config.max_output_tokens

/-- The structured-output request attached to an outbound call (only the
OpenAI request shape can carry one). -/
def callResponseFormat : OutboundCall → Option Str
  | .openai r => r.response_format
  | _ => none

/-- **C10.** With the caller omitting the sampling parameters, both `chat`
and `stream` attach temperature 0.7 and max output tokens 1024 to the
outbound call for every provider; the structured/JSON-output option exists
only on the blocking chat path — a streamed call never carries a response
format for any arguments, while a chat call routed to OpenAI carries
exactly the caller's option (and a chat call routed elsewhere drops it). -/
theorem c10_defaults_and_json_option (model prompt : Str) (system : Option Str)
    (rf : Option Str) (t : Option ℚ) (k : Option Nat) :
    callTemperature (chat_dispatch model prompt system none none rf) = some ((7 : ℚ)/10)
    ∧ callMaxTokens (chat_dispatch model prompt system none none rf) = 1024
    ∧ callTemperature (stream_dispatch model prompt system none none) = some ((7 : ℚ)/10)
    ∧ callMaxTokens (stream_dispatch model prompt system none none) = 1024
    ∧ callResponseFormat (stream_dispatch model prompt system t k) = none
    ∧ (get_provider model = .openai →
        callResponseFormat (chat_dispatch model prompt system t k rf) = rf)
    ∧ (get_provider model ≠ .openai →
        callResponseFormat (chat_dispatch model prompt system t k rf) = none) := by
  have h710 : ((7 : ℚ)/10) ≤ 1 := by norm_num
  cases hp : get_provider model <;>
    simp [chat_dispatch, stream_dispatch, hp, callTemperature, callMaxTokens,
      callResponseFormat, buildOllamaChat, buildOllamaStream, buildOpenaiChat,
      buildOpenaiStream, buildAnthropicChat, buildAnthropicStream, buildGeminiChat,
      buildGeminiStream, h710]

/-- Witness for C10 on concrete models: `gpt-4o` routes to OpenAI and keeps
the JSON option on the chat path; `claude-3` routes to Anthropic and drops
it. -/
theorem c10_defaults_and_json_option_witness :
    callResponseFormat (chat_dispatch "gpt-4o".toList "hi".toList none none none
        (some "json_object".toList)) = some "json_object".toList
    ∧ callResponseFormat (chat_dispatch "claude-3".toList "hi".toList none none none
        (some "json_object".toList)) = none := by
  constructor
  · exact (c10_defaults_and_json_option "gpt-4o".toList "hi".toList none
      (some "json_object".toList) none none).2.2.2.2.2.1 (by decide)
  · exact (c10_defaults_and_json_option "claude-3".toList "hi".toList none
      (some "json_object".toList) none none).2.2.2.2.2.2 (by decide)
